import Mathlib

/-!
Shallow embedding of the snake-game engine in `src/snake_game.py`.

The embedding models the game-state core (classes `Point`, `Snake`, `Food`,
`SnakeGame`) as pure Lean functions.  Mutation of `self` becomes explicit
state passing: each Python method that mutates an object is a Lean function
from the old value to the new value.  `random.choice(available)` is modelled
by an extra `Nat` parameter `k` selecting the element `available[k % len]`;
every element of `available` is obtained for some `k`, so a property proved
for all `k` covers every possible random draw.  `random.choice` on an empty
list raises `IndexError`; this unguarded crash is modelled by `Option`:
`none` is the crash, `some` the normal return.
-/

/-- `GRID_WIDTH = 30` from the source header. -/
def GRID_WIDTH : Nat := 30

/-- `GRID_HEIGHT = 22` from the source header. -/
def GRID_HEIGHT : Nat := 22

/-- Python `Point` dataclass: frozen pair of ints with value equality. -/
structure Point where
  x : Int
  y : Int
deriving DecidableEq, Repr, Inhabited

/-- The four direction vectors that the key map `DIRECTION_VECTORS` can
deliver to `set_direction`: up, down, left, right. -/
def dirVectors : List Point :=
  [Point.mk 0 (-1), Point.mk 0 1, Point.mk (-1) 0, Point.mk 1 0]

/-- Python `Snake` object state: ordered body (head first), committed
direction, pending direction, pending growth counter. -/
structure Snake where
  body : List Point
  direction : Point
  pending_direction : Point
  grow_pending : Nat
deriving DecidableEq, Repr

/-- `Snake.__init__`: body `[Point(W//2 + i, H//2) for i in range(3)]`,
direction and pending direction `(-1, 0)`, `grow_pending = 0`. -/
def Snake.init : Snake where
  body := (List.range 3).map fun i =>
    Point.mk ((GRID_WIDTH : Int) / 2 + i) ((GRID_HEIGHT : Int) / 2)
  direction := Point.mk (-1) 0
  pending_direction := Point.mk (-1) 0
  grow_pending := 0

/-- `Snake.head` property: `self.body[0]` (the body is nonempty in every
reachable state; `headI` supplies a junk default on `[]` where Python
would raise). -/
def Snake.head (s : Snake) : Point := s.body.headI

/-- `Snake.set_direction`: drop the request when it is the exact opposite of
the committed direction, else store it as the pending direction. -/
def Snake.set_direction (s : Snake) (direction : Point) : Snake :=
  if direction.x = -s.direction.x ∧ direction.y = -s.direction.y then s
  else { s with pending_direction := direction }

/-- `Snake.move`: commit the pending direction, prepend the new head; if
growth is pending consume one unit and keep the tail, else pop the tail. -/
def Snake.move (s : Snake) : Snake :=
  let d := s.pending_direction
  let new_head := Point.mk (s.head.x + d.x) (s.head.y + d.y)
  let b := new_head :: s.body
  if 0 < s.grow_pending then
    { body := b, direction := d, pending_direction := d,
      grow_pending := s.grow_pending - 1 }
  else
    { body := b.dropLast, direction := d, pending_direction := d,
      grow_pending := s.grow_pending }

/-- `Snake.grow(amount)`: add `amount` to the pending-growth counter. -/
def Snake.grow (s : Snake) (amount : Nat) : Snake :=
  { s with grow_pending := s.grow_pending + amount }

/-- `Snake.hits_self`: head occurs again in `body[1:]`. -/
def Snake.hits_self (s : Snake) : Bool :=
  decide (s.head ∈ s.body.tail)

/-- All grid cells in the order generated by
`[Point(x, y) for x in range(GRID_WIDTH) for y in range(GRID_HEIGHT)]`
(outer loop over `x`, inner over `y`). -/
def allCells : List Point :=
  (List.range GRID_WIDTH).flatMap fun x =>
    (List.range GRID_HEIGHT).map fun y => Point.mk x y

/-- The `available` list built inside `Food._random_position`: all grid
cells not in `occupied`, in generation order. -/
def availableCells (occupied : List Point) : List Point :=
  allCells.filter fun p => decide (p ∉ occupied)

/-- `Food._random_position(occupied)`: `random.choice(available)`, modelled
by the draw index `k`; `none` models the `IndexError` that
`random.choice` raises on an empty `available` list. -/
def Food.random_position (occupied : List Point) (k : Nat) : Option Point :=
  (availableCells occupied).get? (k % (availableCells occupied).length)

/-- Python `SnakeGame` engine state: owned snake, the position of the food
(`Food` holds a single `Point`), score, and the two flags.  The pygame
surface, clock and fonts are presentation only and are not modelled. -/
structure SnakeGame where
  snake : Snake
  food : Point
  score : Nat
  game_over : Bool
  paused : Bool
deriving DecidableEq, Repr

/-- `SnakeGame.reset`: fresh `Snake()`, fresh `Food(snake.body)`, zero score,
both flags cleared.  The method reads nothing from the previous state (the
unused argument); `k` is the food draw, and `none` models the (unreachable
for the 3-cell initial body) empty-draw crash. -/
def SnakeGame.reset (_ : SnakeGame) (k : Nat) : Option SnakeGame :=
  (Food.random_position Snake.init.body k).map fun p =>
    { snake := Snake.init, food := p, score := 0,
      game_over := false, paused := false }

/-- `SnakeGame.update`: move, then wall check, then self check, then food
check with `grow(2)`, `score += 10` and `food.relocate(snake.body)`
(`relocate` is `_random_position` on the post-move, post-grow body, which
equals the post-move body).  `none` models the unguarded `IndexError`
escaping `update` when `relocate` finds no free cell. -/
def SnakeGame.update (g : SnakeGame) (k : Nat) : Option SnakeGame :=
  let s := g.snake.move
  if ¬(0 ≤ s.head.x ∧ s.head.x < (GRID_WIDTH : Int) ∧
       0 ≤ s.head.y ∧ s.head.y < (GRID_HEIGHT : Int)) then
    some { g with snake := s, game_over := true }
  else if s.hits_self then
    some { g with snake := s, game_over := true }
  else if s.head = g.food then
    match Food.random_position (s.grow 2).body k with
    | some p => some { g with snake := s.grow 2, score := g.score + 10, food := p }
    | none => none
  else
    some { g with snake := s }

/-- One iteration of the game-logic part of `SnakeGame.run`: `update` runs
only when neither `game_over` nor `paused` is set (drawing and event
polling are presentation and are not modelled). -/
def SnakeGame.tick (g : SnakeGame) (k : Nat) : Option SnakeGame :=
  if g.game_over || g.paused then some g else g.update k

/-! ### Helper lemmas -/

/-- Whenever some grid cell is outside `occupied`, `_random_position`
returns (for every draw `k`) a grid cell outside `occupied`. -/
theorem random_position_spec (occupied : List Point) (k : Nat) (c : Point)
    (hc : c ∈ allCells) (hco : c ∉ occupied) :
    ∃ p, Food.random_position occupied k = some p ∧ p ∈ allCells ∧ p ∉ occupied := by
  have hmem : c ∈ availableCells occupied := by
    simp only [availableCells, List.mem_filter, decide_eq_true_eq]
    exact ⟨hc, hco⟩
  have hpos : 0 < (availableCells occupied).length :=
    List.length_pos.mpr (List.ne_nil_of_mem hmem)
  have hk : k % (availableCells occupied).length < (availableCells occupied).length :=
    Nat.mod_lt _ hpos
  refine ⟨(availableCells occupied).get ⟨k % (availableCells occupied).length, hk⟩, ?_, ?_⟩
  · exact List.get?_eq_get hk
  · have hmem2 : (availableCells occupied).get ⟨k % (availableCells occupied).length, hk⟩ ∈
        allCells.filter (fun p => decide (p ∉ occupied)) :=
      List.get_mem (availableCells occupied) _ hk
    have h3 := List.mem_filter.mp hmem2
    exact ⟨h3.1, of_decide_eq_true h3.2⟩

/-- A direction vector is never its own exact opposite. -/
theorem dirVectors_not_self_opposite (p : Point) (hp : p ∈ dirVectors) :
    ¬(p.x = -p.x ∧ p.y = -p.y) := by
  simp only [dirVectors, List.mem_cons, List.not_mem_nil, or_false] at hp
  rcases hp with h | h | h | h <;> subst h <;> decide

/-! ### Claim theorems -/

/-- C2: when every grid cell is occupied, food placement does not return a
position or signal a dedicated error: `random.choice([])` raises an
unguarded `IndexError` (modelled by `none`), and no transition to the Over
state happens.  This settles C2 against the code: the `NoFreeCellForFood`
handling demanded by the spec is absent from the source. -/
theorem C2_full_grid_relocate_crashes (k : Nat) :
    Food.random_position allCells k = none := by
  have h : availableCells allCells = [] := by
    simp only [availableCells, List.filter_eq_nil_iff, decide_eq_true_eq]
    intro a ha ha2
    exact ha2 ha
  simp [Food.random_position, h]

/-- C3: `move()` commits the pending direction, prepends
`head + direction`, and either consumes one unit of pending growth keeping
the tail (length grows by one) or pops the tail (length unchanged).  The
theorem holds for every snake with a nonempty body, with no bounds or
self-collision hypothesis: `move` itself checks neither. -/
theorem C3_move_behavior (s : Snake) (h : s.body ≠ []) :
    s.move.direction = s.pending_direction ∧
    s.move.pending_direction = s.pending_direction ∧
    (0 < s.grow_pending →
      s.move.body =
        Point.mk (s.head.x + s.pending_direction.x)
          (s.head.y + s.pending_direction.y) :: s.body ∧
      s.move.grow_pending = s.grow_pending - 1 ∧
      s.move.body.length = s.body.length + 1) ∧
    (s.grow_pending = 0 →
      s.move.body =
        Point.mk (s.head.x + s.pending_direction.x)
          (s.head.y + s.pending_direction.y) :: s.body.dropLast ∧
      s.move.grow_pending = 0 ∧
      s.move.body.length = s.body.length) := by
  obtain ⟨body, dir, pend, gp⟩ := s
  rcases body with _ | ⟨b, bs⟩
  · exact absurd rfl h
  by_cases hg : 0 < gp
  · refine ⟨by simp [Snake.move, hg], by simp [Snake.move, hg], ?_, ?_⟩
    · intro _
      exact ⟨by simp [Snake.move, Snake.head, hg], by simp [Snake.move, hg],
        by simp [Snake.move, hg]⟩
    · intro he
      have he2 : gp = 0 := he
      omega
  · have hg0 : gp = 0 := by omega
    subst hg0
    refine ⟨by simp [Snake.move], by simp [Snake.move],
      fun hc => absurd (show (0 : Nat) < 0 from hc) (Nat.lt_irrefl 0), ?_⟩
    intro _
    refine ⟨by simp [Snake.move, Snake.head], by simp [Snake.move], ?_⟩
    simp [Snake.move, Snake.head, List.length_dropLast]

/-- C3 witness: the statement of `C3_move_behavior` instantiated at the
initial snake. -/
theorem C3_move_behavior_witness :
    Snake.init.body ≠ [] ∧ Snake.init.move.direction = Snake.init.pending_direction :=
  ⟨by decide, (C3_move_behavior Snake.init (by decide)).1⟩

/-- C5: `set_direction(d)` silently drops a request that is the exact
opposite of the committed direction (the whole snake state is unchanged)
and otherwise stores `d` as the pending direction, touching nothing else. -/
theorem C5_set_direction_behavior (s : Snake) (d : Point) (hd : d ∈ dirVectors) :
    (d.x = -s.direction.x ∧ d.y = -s.direction.y → s.set_direction d = s) ∧
    (¬(d.x = -s.direction.x ∧ d.y = -s.direction.y) →
      (s.set_direction d).pending_direction = d ∧
      (s.set_direction d).body = s.body ∧
      (s.set_direction d).direction = s.direction ∧
      (s.set_direction d).grow_pending = s.grow_pending) := by
  constructor
  · intro hop
    simp [Snake.set_direction, hop]
  · intro hop
    simp [Snake.set_direction, hop]

/-- C5 witness: requesting `(1, 0)` against committed direction `(-1, 0)` on
the initial snake is a dropped opposite request. -/
theorem C5_set_direction_witness :
    Point.mk 1 0 ∈ dirVectors ∧ Snake.init.set_direction (Point.mk 1 0) = Snake.init :=
  ⟨by decide, (C5_set_direction_behavior Snake.init (Point.mk 1 0) (by decide)).1 (by decide)⟩

/-- C6: with `paused` or `game_over` set, the per-tick advance returns the
state unchanged: `run` only calls `update` when both flags are clear. -/
theorem C6_tick_noop (g : SnakeGame) (k : Nat)
    (h : g.paused = true ∨ g.game_over = true) :
    g.tick k = some g := by
  rcases h with h | h <;> simp [SnakeGame.tick, h]

/-- C6 witness: a paused game is unchanged by the advance. -/
theorem C6_tick_noop_witness :
    SnakeGame.tick ⟨Snake.init, Point.mk 0 0, 5, false, true⟩ 3 =
      some ⟨Snake.init, Point.mk 0 0, 5, false, true⟩ :=
  C6_tick_noop ⟨Snake.init, Point.mk 0 0, 5, false, true⟩ 3 (Or.inl rfl)

/-- C9 counterexample: the head of a fresh snake is the grid center
`(W/2, H/2) = (15, 11)`, not the center offset by body length − 1 as the
claim states. -/
theorem C9_head_offset_counterexample :
    Snake.init.head = Point.mk ((GRID_WIDTH : Int) / 2) ((GRID_HEIGHT : Int) / 2) ∧
    Snake.init.head ≠
      Point.mk ((GRID_WIDTH : Int) / 2 + ((Snake.init.body.length : Int) - 1))
        ((GRID_HEIGHT : Int) / 2) := by decide

/-- C9 amended: a fresh snake has exactly the three cells
`(cx, cy), (cx+1, cy), (cx+2, cy)` head first, so the head sits at the
horizontal center `(cx, cy)` and it is the tail that sits at
`cx + (length − 1)`; committed and pending direction are both `(-1, 0)`. -/
theorem C9_initial_configuration :
    Snake.init.body =
      [Point.mk ((GRID_WIDTH : Int) / 2) ((GRID_HEIGHT : Int) / 2),
       Point.mk ((GRID_WIDTH : Int) / 2 + 1) ((GRID_HEIGHT : Int) / 2),
       Point.mk ((GRID_WIDTH : Int) / 2 + 2) ((GRID_HEIGHT : Int) / 2)] ∧
    Snake.init.head = Point.mk ((GRID_WIDTH : Int) / 2) ((GRID_HEIGHT : Int) / 2) ∧
    Snake.init.body.getLast? =
      some (Point.mk ((GRID_WIDTH : Int) / 2 + ((Snake.init.body.length : Int) - 1))
        ((GRID_HEIGHT : Int) / 2)) ∧
    Snake.init.direction = Point.mk (-1) 0 ∧
    Snake.init.pending_direction = Point.mk (-1) 0 ∧
    Snake.init.body.length = 3 := by decide

/-- The implicit no-reversal invariant of C10: both stored directions are
among the four key-map vectors and the pending direction is not the exact
opposite of the committed one. -/
def SnakeNoReversalInv (s : Snake) : Prop :=
  s.direction ∈ dirVectors ∧ s.pending_direction ∈ dirVectors ∧
  ¬(s.pending_direction.x = -s.direction.x ∧ s.pending_direction.y = -s.direction.y)

instance (s : Snake) : Decidable (SnakeNoReversalInv s) := by
  unfold SnakeNoReversalInv
  infer_instance

/-- C10: the no-reversal invariant holds for the fresh snake and is
preserved by `set_direction` (for any key-map direction), by `move`
(which commits the pending direction; a unit vector is never its own
opposite), and by `grow`. -/
theorem C10_no_reversal_invariant :
    SnakeNoReversalInv Snake.init ∧
    ∀ s : Snake, SnakeNoReversalInv s →
      (∀ d ∈ dirVectors, SnakeNoReversalInv (s.set_direction d)) ∧
      SnakeNoReversalInv s.move ∧
      (∀ n : Nat, SnakeNoReversalInv (s.grow n)) := by
  refine ⟨by decide, ?_⟩
  intro s hs
  obtain ⟨hdir, hpend, hnop⟩ := hs
  refine ⟨?_, ?_, ?_⟩
  · intro d hd
    unfold Snake.set_direction
    by_cases hop : d.x = -s.direction.x ∧ d.y = -s.direction.y
    · rw [if_pos hop]
      exact ⟨hdir, hpend, hnop⟩
    · rw [if_neg hop]
      exact ⟨hdir, hd, hop⟩
  · unfold Snake.move
    by_cases hg : 0 < s.grow_pending
    · rw [if_pos hg]
      exact ⟨hpend, hpend, dirVectors_not_self_opposite _ hpend⟩
    · rw [if_neg hg]
      exact ⟨hpend, hpend, dirVectors_not_self_opposite _ hpend⟩
  · intro n
    exact ⟨hdir, hpend, hnop⟩

/-- C10 witness: the invariant holds for the fresh snake and is preserved
by one `move` from it. -/
theorem C10_no_reversal_invariant_witness :
    SnakeNoReversalInv Snake.init ∧ SnakeNoReversalInv Snake.init.move :=
  ⟨C10_no_reversal_invariant.1,
    (C10_no_reversal_invariant.2 Snake.init (by decide)).2.1⟩

/-- A game about to hit the left wall with two units of pending growth:
the tick decrements `grow_pending` from 2 to 1 before the wall check, so
the "growPending unchanged" part of C4 fails on this input while food,
score and `game_over = true` behave as claimed. -/
def C4game : SnakeGame where
  snake := ⟨[Point.mk 0 11, Point.mk 1 11, Point.mk 2 11],
    Point.mk (-1) 0, Point.mk (-1) 0, 2⟩
  food := Point.mk 20 5
  score := 0
  game_over := false
  paused := false

/-- C4 counterexample: on `C4game` the advance sets `game_over` and leaves
food and score alone, but `grow_pending` drops from 2 to 1, contradicting
the claim that `growPending` is unchanged on a wall-collision tick. -/
theorem C4_grow_pending_counterexample :
    SnakeGame.update C4game 0 =
      some ⟨⟨[Point.mk (-1) 11, Point.mk 0 11, Point.mk 1 11, Point.mk 2 11],
        Point.mk (-1) 0, Point.mk (-1) 0, 1⟩, Point.mk 20 5, 0, true, false⟩ ∧
    C4game.snake.grow_pending = 2 := by decide

/-- C4 amended: when the post-move head is outside `[0,W) x [0,H)` the tick
sets `game_over`, keeps food, score and `paused` unchanged, performs no
growth or self-collision processing (the result is exactly the post-move
snake), and `grow_pending` is the pre-tick value decremented by the move
step itself (truncated at zero). -/
theorem C4_wall_collision_stops_tick (g : SnakeGame) (k : Nat)
    (h : ¬(0 ≤ g.snake.move.head.x ∧ g.snake.move.head.x < (GRID_WIDTH : Int) ∧
           0 ≤ g.snake.move.head.y ∧ g.snake.move.head.y < (GRID_HEIGHT : Int))) :
    g.update k =
      some { snake := g.snake.move, food := g.food, score := g.score,
             game_over := true, paused := g.paused } ∧
    g.snake.move.grow_pending = g.snake.grow_pending - 1 := by
  constructor
  · simp only [SnakeGame.update]
    rw [if_pos h]
  · by_cases hg : 0 < g.snake.grow_pending
    · simp [Snake.move, hg]
    · simp [Snake.move, hg]
      omega

/-- C4 witness: a growth-free snake walking into the left wall. -/
theorem C4_wall_collision_witness :
    SnakeGame.update ⟨⟨[Point.mk 0 3, Point.mk 1 3, Point.mk 2 3],
        Point.mk (-1) 0, Point.mk (-1) 0, 0⟩, Point.mk 20 5, 7, false, false⟩ 0 =
      some { snake := (⟨⟨[Point.mk 0 3, Point.mk 1 3, Point.mk 2 3],
               Point.mk (-1) 0, Point.mk (-1) 0, 0⟩,
               Point.mk 20 5, 7, false, false⟩ : SnakeGame).snake.move,
             food := Point.mk 20 5, score := 7, game_over := true, paused := false } :=
  (C4_wall_collision_stops_tick ⟨⟨[Point.mk 0 3, Point.mk 1 3, Point.mk 2 3],
    Point.mk (-1) 0, Point.mk (-1) 0, 0⟩, Point.mk 20 5, 7, false, false⟩ 0 (by decide)).1

/-- The 3-cell snake of the eating scenario of C1: body
`(14,11),(15,11),(16,11)` head first, both directions `(-1,0)`, no pending
growth. -/
def C1snake : Snake where
  body := [Point.mk 14 11, Point.mk 15 11, Point.mk 16 11]
  direction := Point.mk (-1) 0
  pending_direction := Point.mk (-1) 0
  grow_pending := 0

/-- The game of the eating scenario of C1: food at `(13,11)`, zero score,
Active state. -/
def C1pre : SnakeGame where
  snake := C1snake
  food := Point.mk 13 11
  score := 0
  game_over := false
  paused := false

/-- The post-move body of the eating scenario of C1. -/
def C1body : List Point := [Point.mk 13 11, Point.mk 14 11, Point.mk 15 11]

set_option maxRecDepth 8000 in
/-- C1: for every random draw, one tick on the eating scenario moves the
head onto the food, yields body `[(13,11),(14,11),(15,11)]`, `score = 10`,
`grow_pending = 2`, `game_over = false`, and a relocated food cell outside
the new body. -/
theorem C1_eating_tick (k : Nat) :
    ∃ p, C1pre.update k =
        some { snake := ⟨C1body, Point.mk (-1) 0, Point.mk (-1) 0, 2⟩,
               food := p, score := 10, game_over := false, paused := false } ∧
      p ∉ C1body := by
  obtain ⟨p, hp, _, hpo⟩ :=
    random_position_spec C1body k (Point.mk 0 0) (by decide) (by decide)
  refine ⟨p, ?_, hpo⟩
  have key : C1pre.update k =
      (match Food.random_position C1body k with
        | some q =>
            some { snake := ⟨C1body, Point.mk (-1) 0, Point.mk (-1) 0, 2⟩,
                   food := q, score := 10, game_over := false, paused := false }
        | none => none) := rfl
  rw [key, hp]

/-- C7: whenever some grid cell is free, `relocate` returns (for every
possible random draw) a food position outside the occupied set given to
it. -/
theorem C7_relocate_avoids_occupied (occupied : List Point) (k : Nat)
    (h : ∃ c ∈ allCells, c ∉ occupied) :
    ∃ p, Food.random_position occupied k = some p ∧ p ∉ occupied := by
  obtain ⟨c, hc, hco⟩ := h
  obtain ⟨p, hp, _, hpo⟩ := random_position_spec occupied k c hc hco
  exact ⟨p, hp, hpo⟩

set_option maxRecDepth 100000 in
/-- C7 witness: with only `(0,0)` occupied, draw 0 places food at `(0,1)`,
which is outside the occupied set. -/
theorem C7_relocate_witness :
    Food.random_position [Point.mk 0 0] 0 = some (Point.mk 0 1) ∧
    Point.mk 0 1 ∉ [Point.mk 0 0] := by
  obtain ⟨p, hp, hpo⟩ := C7_relocate_avoids_occupied [Point.mk 0 0] 0
    ⟨Point.mk 0 1, by decide, by decide⟩
  have he : Food.random_position [Point.mk 0 0] 0 = some (Point.mk 0 1) := by decide
  have hpe : p = Point.mk 0 1 := by
    rw [he] at hp
    exact (Option.some.inj hp).symm
  exact ⟨he, hpe ▸ hpo⟩

/-- C8: from any prior state and for every random draw, `reset` produces a
state with zero score, both flags clear, the fresh initial snake, and a
food cell outside the snake body. -/
theorem C8_reset_reinitializes (g0 : SnakeGame) (k : Nat) :
    ∃ g, g0.reset k = some g ∧ g.score = 0 ∧ g.game_over = false ∧
      g.paused = false ∧ g.snake = Snake.init ∧ g.food ∉ g.snake.body := by
  obtain ⟨p, hp, _, hpo⟩ :=
    random_position_spec Snake.init.body k (Point.mk 0 0) (by decide) (by decide)
  refine ⟨{ snake := Snake.init, food := p, score := 0,
            game_over := false, paused := false }, ?_, rfl, rfl, rfl, rfl, hpo⟩
  simp [SnakeGame.reset, hp]

set_option maxRecDepth 100000 in
/-- C1 witness: the eating tick with draw 0 relocates the food to `(0,0)`,
outside the new body. -/
theorem C1_eating_tick_witness :
    C1pre.update 0 =
      some { snake := ⟨C1body, Point.mk (-1) 0, Point.mk (-1) 0, 2⟩,
             food := Point.mk 0 0, score := 10, game_over := false, paused := false } ∧
    Point.mk 0 0 ∉ C1body := by
  obtain ⟨p, hp, hpo⟩ := C1_eating_tick 0
  have he : C1pre.update 0 =
      some { snake := ⟨C1body, Point.mk (-1) 0, Point.mk (-1) 0, 2⟩,
             food := Point.mk 0 0, score := 10, game_over := false,
             paused := false } := by decide
  have hpe : p = Point.mk 0 0 := by
    rw [he] at hp
    exact (congrArg SnakeGame.food (Option.some.inj hp)).symm
  exact ⟨he, hpe ▸ hpo⟩

set_option maxRecDepth 100000 in
/-- C8 witness: resetting a finished game with draw 0 yields the fresh
state with food at `(0,0)`, outside the initial body. -/
theorem C8_reset_witness :
    SnakeGame.reset ⟨Snake.init, Point.mk 5 5, 30, true, true⟩ 0 =
      some ⟨Snake.init, Point.mk 0 0, 0, false, false⟩ ∧
    Point.mk 0 0 ∉ Snake.init.body := by
  obtain ⟨g, hg, hs, hgo, hpa, hsn, hfo⟩ :=
    C8_reset_reinitializes ⟨Snake.init, Point.mk 5 5, 30, true, true⟩ 0
  have he : SnakeGame.reset ⟨Snake.init, Point.mk 5 5, 30, true, true⟩ 0 =
      some ⟨Snake.init, Point.mk 0 0, 0, false, false⟩ := by decide
  have hge : g = ⟨Snake.init, Point.mk 0 0, 0, false, false⟩ := by
    rw [he] at hg
    exact (Option.some.inj hg).symm
  refine ⟨he, ?_⟩
  rw [hge] at hfo
  exact hfo
